import Mathlib

/-!
Shallow embedding of the AlgoTradeX day-trading engine, covering
`src/src/alpaca_utils/trade_manager.py` (class `TradeManager`) and the
decision logic of `src/main_day_trader.py` (`run_day_trader`).

Modelling conventions:
  * Python floats (prices, quantities, seconds) are modelled as exact
    rationals `ℚ`; Python `round(x, 2)` is modelled by `round2` below
    (round half up on exact rationals; Python uses banker's rounding on
    binary floats, which agrees away from exact half-cent ties, and no
    theorem here depends on a tie).
  * Python truthiness of an optional float argument (`if stop_loss_price:`)
    is `pyTruthy`: `None` and `0.0` are falsy, every other float is truthy.
  * Broker API calls are parameters: order submission is a function
    `request → Option ack` where `none` models a raised exception or a
    null response, and order-status polling is a function
    `Nat → PollResult` giving the result of each successive poll.
  * Side effects are captured as a trace of `Action`s (orders submitted,
    positions flattened, sleeps), so the theorems can speak about what a
    loop cycle did and did not do.
-/

/-- Order side, `alpaca.trading.enums.OrderSide` restricted to the two
values the program uses. The source passes the side as a lowercase string
and compares with "buy"; the enum is equivalent for these call sites. -/
inductive Side where
  | buy
  | sell
deriving DecidableEq, Repr

/-- Order class of the submitted entry order. -/
inductive OrderClass where
  | simple
  | bracket
deriving DecidableEq, Repr

/-- Order status as observed while polling (`alpaca.trading.enums.OrderStatus`,
restricted to the statuses the code branches on plus non-terminal ones). -/
inductive OrderStatus where
  | filled
  | canceled
  | rejected
  | expired
  | accepted
  | pendingNew
deriving DecidableEq, Repr

/-- Python truthiness of an optional float: `None` and `0.0` are falsy. -/
def pyTruthy : Option ℚ → Bool
  | none => false
  | some v => v != 0

/-- Python `round(x, 2)` modelled on exact rationals (round half up). -/
def round2 (x : ℚ) : ℚ := (⌊x * 100 + 1 / 2⌋ : ℤ) / 100

/-- Python `int(x)` on a float: truncation toward zero. -/
def int_trunc (q : ℚ) : ℤ := if 0 ≤ q then ⌊q⌋ else ⌈q⌉

/-- StopLossRequest as built by `place_market_order`: a stop price and a
stop-limit price. -/
structure StopLossLeg where
  stop_price : ℚ
  limit_price : ℚ
deriving DecidableEq, Repr

/-- TakeProfitRequest: a limit price. -/
structure TakeProfitLeg where
  limit_price : ℚ
deriving DecidableEq, Repr

/-- MarketOrderRequest as constructed in `TradeManager.place_market_order`
(the fields the claims are about; time_in_force is constantly GTC). -/
structure MarketOrderRequest where
  symbol : String
  qty : ℚ
  side : Side
  order_class : OrderClass
  take_profit : Option TakeProfitLeg
  stop_loss : Option StopLossLeg
deriving DecidableEq, Repr

/-- TrailingStopOrderRequest as constructed in
`TradeManager.place_trailing_stop_order`. -/
structure TrailingStopOrderRequest where
  symbol : String
  qty : ℚ
  side : Side
  trail_price : Option ℚ
  trail_percent : Option ℚ
deriving DecidableEq, Repr

/-- Broker acknowledgment of a submitted order (the loop only reads `id`
off the response before polling). -/
structure OrderAck where
  id : Nat
deriving DecidableEq, Repr

/-- Observable side effects of the engine, recorded as a trace. -/
inductive TraceAction where
  | closeAll
  | submitMarket (o : MarketOrderRequest)
  | submitTrailing (o : TrailingStopOrderRequest)
  | sleep (seconds : ℚ)
deriving DecidableEq, Repr

/-- TradeManager.validate_trade: fetches the account (here: the buying
power is passed in) and fails when buying power is ≤ 0; both the buy and
the sell branch perform the same check, differing only in the printed
message. -/
def validate_trade (buying_power : ℚ) (_symbol : String) (_qty : ℚ) (side : Side) : Bool :=
  match side with
  | Side.buy => if buying_power ≤ 0 then false else true
  | Side.sell => if buying_power ≤ 0 then false else true

/-- Order construction inside the `try` block of
`TradeManager.place_market_order`: order class from Python truthiness of
both protective prices, stop price pushed through
`max(slp, slp - 0.003*slp)` for a buy / `max(slp, slp + 0.003*slp)` for a
sell, stop-limit price offset by 0.1% of the stop price, take-profit price
rounded and re-tested for truthiness. -/
def build_market_order (symbol : String) (qty : ℚ) (side : Side)
    (stop_loss_price take_profit_price : Option ℚ) : MarketOrderRequest :=
  let order_class :=
    if pyTruthy stop_loss_price && pyTruthy take_profit_price then
      OrderClass.bracket
    else OrderClass.simple
  let stop_loss : Option StopLossLeg :=
    if pyTruthy stop_loss_price then
      match stop_loss_price with
      | some slp =>
        let min_sl_distance := slp * (3 / 1000)
        let stop_price :=
          max slp (if side = Side.buy then slp - min_sl_distance else slp + min_sl_distance)
        let stop_price := round2 stop_price
        let stop_limit_offset := stop_price * (1 / 1000)
        let stop_limit_price :=
          round2 (if side = Side.buy then stop_price - stop_limit_offset
                  else stop_price + stop_limit_offset)
        some ⟨stop_price, stop_limit_price⟩
      | none => none
    else none
  let take_profit_price :=
    if pyTruthy take_profit_price then take_profit_price.map round2 else none
  let take_profit : Option TakeProfitLeg :=
    if pyTruthy take_profit_price then take_profit_price.map (fun p => ⟨p⟩) else none
  { symbol := symbol, qty := qty, side := side, order_class := order_class,
    take_profit := take_profit, stop_loss := stop_loss }

/-- TradeManager.place_market_order: validates buying power (fails closed,
returning `none` and submitting nothing), else constructs the request and
submits it; `submit` returning `none` models an exception raised by the
broker call (caught, `None` returned). The first component is the trace of
submissions attempted. -/
def place_market_order (buying_power : ℚ)
    (submit : MarketOrderRequest → Option OrderAck)
    (symbol : String) (qty : ℚ) (side : Side)
    (stop_loss_price take_profit_price : Option ℚ) :
    List TraceAction × Option OrderAck :=
  if validate_trade buying_power symbol qty side = false then ([], none)
  else
    let order := build_market_order symbol qty side stop_loss_price take_profit_price
    ([TraceAction.submitMarket order], submit order)

/-- Inversion of the entry side performed by
`TradeManager.place_trailing_stop_order` (`OrderSide.SELL if side == "buy"
else OrderSide.BUY`). -/
def invert_side : Side → Side
  | Side.buy => Side.sell
  | Side.sell => Side.buy

/-- TradeManager.place_trailing_stop_order: computes the exit side by
inverting the entry side, validates buying power with the ORIGINAL entry
side argument (returning `none` and submitting nothing on failure), then
submits a trailing-stop request for `qty` shares on the inverted side. -/
def place_trailing_stop_order (buying_power : ℚ)
    (submit : TrailingStopOrderRequest → Option OrderAck)
    (symbol : String) (qty : ℚ) (side : Side)
    (trail_price trail_percent : Option ℚ) :
    List TraceAction × Option OrderAck :=
  let order_side := if side = Side.buy then Side.sell else Side.buy
  if validate_trade buying_power symbol qty side = false then ([], none)
  else
    let req : TrailingStopOrderRequest :=
      { symbol := symbol, qty := qty, side := order_side,
        trail_price := trail_price, trail_percent := trail_percent }
    ([TraceAction.submitTrailing req], submit req)

/-- Result of one poll of `get_order_by_id`: either the order with its
status and filled quantity, or a raised transport error. -/
inductive PollResult where
  | ok (status : OrderStatus) (filled_qty : ℚ)
  | error
deriving DecidableEq, Repr

/-- Statuses the polling loop treats as terminal failure
(`[OrderStatus.CANCELED, OrderStatus.REJECTED, OrderStatus.EXPIRED]`). -/
def is_terminal_failure (s : OrderStatus) : Bool :=
  s = OrderStatus.canceled || s = OrderStatus.rejected || s = OrderStatus.expired

/-- Poll outcome that makes the loop keep waiting: a successful fetch whose
status is neither FILLED nor a terminal failure. -/
def non_terminal : PollResult → Prop
  | PollResult.ok s _ => s ≠ OrderStatus.filled ∧ is_terminal_failure s = false
  | PollResult.error => False

instance : DecidablePred non_terminal := by
  intro r
  cases r with
  | ok s fq => exact inferInstanceAs (Decidable (_ ∧ _))
  | error => exact inferInstanceAs (Decidable False)

/-- Body of the `while waited < max_wait` loop of
`TradeManager.wait_for_order_fill`, structurally recursive on the number
of remaining iterations (`remaining = max_wait - waited`). `poll waited`
is the result of the fetch performed in the iteration with counter value
`waited`. Returns the returned value together with the number of polls
performed. -/
def wait_from (poll : Nat → PollResult) (waited : Nat) :
    Nat → Option ℚ × Nat
  | 0 => (none, 0)
  | remaining + 1 =>
    match poll waited with
    | PollResult.error => (none, 1)
    | PollResult.ok s fq =>
      if s = OrderStatus.filled then (some fq, 1)
      else if is_terminal_failure s then (none, 1)
      else
        let rest := wait_from poll (waited + 1) remaining
        (rest.1, rest.2 + 1)

/-- TradeManager.wait_for_order_fill: returns the filled quantity, or
`none` on terminal failure, transport error, or timeout. -/
def wait_for_order_fill (poll : Nat → PollResult) (max_wait : Nat) : Option ℚ :=
  (wait_from poll 0 max_wait).1

/-- Number of polls `wait_for_order_fill` performs before returning. -/
def wait_poll_count (poll : Nat → PollResult) (max_wait : Nat) : Nat :=
  (wait_from poll 0 max_wait).2

/-- Trade signal produced by the strategy (`generate_trade_signal`). -/
inductive Signal where
  | BUY
  | SELL
  | HOLD
deriving DecidableEq, Repr

/-- Conversion performed by `trade_signal.lower()` at the `place_market_order`
and `place_trailing_stop_order` call sites (only reached for BUY/SELL). -/
def side_of_signal : Signal → Side
  | Signal.BUY => Side.buy
  | _ => Side.sell

/-- Environment observed while the loop processes one symbol: the data and
strategy outcome, the freshly re-fetched open positions (as their symbols),
the buying power the two `validate_trade` calls will read (each call does
its own `get_account` fetch, hence two values), the risk-manager outputs,
and the broker's responses. -/
structure SymbolEnv where
  has_data : Bool
  signal : Signal
  positions : List String
  buying_power : ℚ
  quantity : ℚ
  take_profit : Option ℚ
  trail_amount : ℚ
  submit_entry : MarketOrderRequest → Option OrderAck
  poll : Nat → PollResult
  ts_buying_power : ℚ
  submit_trailing : TrailingStopOrderRequest → Option OrderAck

/-- Per-symbol body of the trading loop in `run_day_trader`: skip on
missing data, skip on HOLD, skip when an open position for the symbol
already exists, skip when the computed quantity is ≤ 0; otherwise place the
market order (with `stop_loss_price=None` and the risk manager's take
profit), and if a response arrived, wait for the fill (default
`max_wait=10`) and place a trailing stop for the actual filled quantity
when it is truthy and positive. -/
def process_symbol (symbol : String) (env : SymbolEnv) : List TraceAction :=
  if env.has_data = false then []
  else if env.signal = Signal.HOLD then []
  else if symbol ∈ env.positions then []
  else if env.quantity ≤ 0 then []
  else
    let side := side_of_signal env.signal
    let entry :=
      place_market_order env.buying_power env.submit_entry symbol env.quantity side
        none env.take_profit
    match entry.2 with
    | none => entry.1
    | some _ack =>
      match wait_for_order_fill env.poll 10 with
      | none => entry.1
      | some filled_qty =>
        if 0 < filled_qty then
          let ts :=
            place_trailing_stop_order env.ts_buying_power env.submit_trailing symbol
              filled_qty side (some env.trail_amount) none
          entry.1 ++ ts.1
        else entry.1

/-- Market clock snapshot (`get_market_clock_data`), times in seconds. -/
structure MarketClock where
  current_time : ℚ
  is_open : Bool
  next_open : ℚ
  next_close : ℚ

/-- Environment of one iteration of the `while True` loop. -/
structure CycleEnv where
  clock : MarketClock
  symbols : List String
  sym_env : String → SymbolEnv

/-- One iteration of the `while True` loop of `run_day_trader`: if the
market is closed, sleep `max(trading_start_time - current_time, 0)` where
`trading_start_time = next_open + 1 hour`; else if
`int(time_until_close / 60) <= 60`, close all positions and sleep the same
amount; else process every symbol and sleep
`min(time_until_close, 900)`. -/
def run_cycle (env : CycleEnv) : List TraceAction :=
  let time_until_close := env.clock.next_close - env.clock.current_time
  let trading_start_time := env.clock.next_open + 3600
  if env.clock.is_open = false then
    [TraceAction.sleep (max (trading_start_time - env.clock.current_time) 0)]
  else if int_trunc (time_until_close / 60) ≤ 60 then
    [TraceAction.closeAll,
     TraceAction.sleep (max (trading_start_time - env.clock.current_time) 0)]
  else
    (env.symbols.map fun s => process_symbol s (env.sym_env s)).flatten ++
      [TraceAction.sleep (min time_until_close 900)]

/-- Poll sequence used to exercise `wait_for_order_fill` on concrete data:
two pending polls, then a fill of 7 shares. -/
def pollW : Nat → PollResult := fun i =>
  if i < 2 then PollResult.ok OrderStatus.accepted 0 else PollResult.ok OrderStatus.filled 7

/-- Concrete broker acknowledgment used in the concrete environments. -/
def ackW : OrderAck := ⟨37⟩

/-- Concrete per-symbol environment whose signal is HOLD. -/
def sym_env_hold : SymbolEnv where
  has_data := true
  signal := Signal.HOLD
  positions := []
  buying_power := 1000
  quantity := 0
  take_profit := none
  trail_amount := 1
  submit_entry := fun _ => none
  poll := fun _ => PollResult.error
  ts_buying_power := 1000
  submit_trailing := fun _ => none

/-- Concrete per-symbol environment with a BUY signal while a position in
AAPL is already open. -/
def sym_env_dup : SymbolEnv :=
  { sym_env_hold with
      signal := Signal.BUY
      positions := ["AAPL"]
      quantity := 5
      take_profit := some 120
      submit_entry := fun _ => some ackW
      poll := fun _ => PollResult.ok OrderStatus.filled 5
      submit_trailing := fun _ => some ackW }

/-- Concrete per-symbol environment whose entry order gets canceled, so the
fill wait reports no fill. -/
def sym_env_nofill : SymbolEnv :=
  { sym_env_hold with
      signal := Signal.BUY
      quantity := 5
      take_profit := some 120
      submit_entry := fun _ => some ackW
      poll := fun _ => PollResult.ok OrderStatus.canceled 0
      submit_trailing := fun _ => some ackW }

/-- Concrete cycle environment 1800 seconds before market close. -/
def envC4 : CycleEnv where
  clock := { current_time := 0, is_open := true, next_open := 20000, next_close := 1800 }
  symbols := ["AAPL"]
  sym_env := fun _ => sym_env_hold

/-- Concrete cycle environment with the market closed and the reported next
open already in the past. -/
def envC8 : CycleEnv where
  clock := { current_time := 1000, is_open := false, next_open := -5000, next_close := 2000 }
  symbols := []
  sym_env := fun _ => sym_env_hold

/-- Concrete cycle environment, market open with ample time, where the
re-fetched positions already contain the processed symbol. -/
def envC5 : CycleEnv where
  clock := { current_time := 0, is_open := true, next_open := 20000, next_close := 50000 }
  symbols := ["AAPL"]
  sym_env := fun _ => sym_env_dup

/-! Lemmas about the polling loop of `wait_for_order_fill`. -/

theorem wait_from_all_nonterminal (poll : Nat → PollResult) :
    ∀ (remaining waited : Nat),
      (∀ j, j < remaining → non_terminal (poll (waited + j))) →
      wait_from poll waited remaining = (none, remaining) := by
  intro remaining
  induction remaining with
  | zero => intro waited _; rfl
  | succ r ih =>
    intro waited hnt
    have h0 : non_terminal (poll waited) := by
      simpa using hnt 0 (Nat.succ_pos r)
    cases hpw : poll waited with
    | error => rw [hpw] at h0; exact absurd h0 (by simp [non_terminal])
    | ok s fq0 =>
      rw [hpw] at h0
      obtain ⟨hs1, hs2⟩ := h0
      have step : ∀ j, j < r → non_terminal (poll (waited + 1 + j)) := by
        intro j hj
        have e : waited + 1 + j = waited + (j + 1) := by omega
        rw [e]
        exact hnt (j + 1) (by omega)
      simp only [wait_from, hpw]
      rw [if_neg hs1, hs2]
      simp only [Bool.false_eq_true, if_false]
      rw [ih (waited + 1) step]

theorem wait_from_filled (poll : Nat → PollResult) :
    ∀ (i remaining waited : Nat) (fq : ℚ),
      i < remaining →
      (∀ j, j < i → non_terminal (poll (waited + j))) →
      poll (waited + i) = PollResult.ok OrderStatus.filled fq →
      wait_from poll waited remaining = (some fq, i + 1) := by
  intro i
  induction i with
  | zero =>
    intro remaining waited fq hir _ hp
    match remaining, hir with
    | r + 1, _ =>
      rw [Nat.add_zero] at hp
      simp [wait_from, hp]
  | succ k ih =>
    intro remaining waited fq hir hnt hp
    match remaining, hir with
    | r + 1, hir =>
      have h0 : non_terminal (poll waited) := by
        simpa using hnt 0 (Nat.succ_pos k)
      cases hpw : poll waited with
      | error => rw [hpw] at h0; exact absurd h0 (by simp [non_terminal])
      | ok s0 fq0 =>
        rw [hpw] at h0
        obtain ⟨hs1, hs2⟩ := h0
        have step : ∀ j, j < k → non_terminal (poll (waited + 1 + j)) := by
          intro j hj
          have e : waited + 1 + j = waited + (j + 1) := by omega
          rw [e]
          exact hnt (j + 1) (by omega)
        have hp1 : poll (waited + 1 + k) = PollResult.ok OrderStatus.filled fq := by
          have e : waited + 1 + k = waited + (k + 1) := by omega
          rw [e]; exact hp
        simp only [wait_from, hpw]
        rw [if_neg hs1, hs2]
        simp only [Bool.false_eq_true, if_false]
        rw [ih r (waited + 1) fq (by omega) step hp1]

theorem wait_from_terminal (poll : Nat → PollResult) :
    ∀ (i remaining waited : Nat) (s : OrderStatus) (fq : ℚ),
      i < remaining →
      (∀ j, j < i → non_terminal (poll (waited + j))) →
      poll (waited + i) = PollResult.ok s fq →
      is_terminal_failure s = true →
      wait_from poll waited remaining = (none, i + 1) := by
  intro i
  induction i with
  | zero =>
    intro remaining waited s fq hir _ hp hterm
    match remaining, hir with
    | r + 1, _ =>
      rw [Nat.add_zero] at hp
      have hsf : s ≠ OrderStatus.filled := by
        intro h; rw [h] at hterm; exact absurd hterm (by decide)
      simp [wait_from, hp, hsf, hterm]
  | succ k ih =>
    intro remaining waited s fq hir hnt hp hterm
    match remaining, hir with
    | r + 1, hir =>
      have h0 : non_terminal (poll waited) := by
        simpa using hnt 0 (Nat.succ_pos k)
      cases hpw : poll waited with
      | error => rw [hpw] at h0; exact absurd h0 (by simp [non_terminal])
      | ok s0 fq0 =>
        rw [hpw] at h0
        obtain ⟨hs1, hs2⟩ := h0
        have step : ∀ j, j < k → non_terminal (poll (waited + 1 + j)) := by
          intro j hj
          have e : waited + 1 + j = waited + (j + 1) := by omega
          rw [e]
          exact hnt (j + 1) (by omega)
        have hp1 : poll (waited + 1 + k) = PollResult.ok s fq := by
          have e : waited + 1 + k = waited + (k + 1) := by omega
          rw [e]; exact hp
        simp only [wait_from, hpw]
        rw [if_neg hs1, hs2]
        simp only [Bool.false_eq_true, if_false]
        rw [ih r (waited + 1) s fq (by omega) step hp1 hterm]

theorem wait_from_error (poll : Nat → PollResult) :
    ∀ (i remaining waited : Nat),
      i < remaining →
      (∀ j, j < i → non_terminal (poll (waited + j))) →
      poll (waited + i) = PollResult.error →
      wait_from poll waited remaining = (none, i + 1) := by
  intro i
  induction i with
  | zero =>
    intro remaining waited hir _ hp
    match remaining, hir with
    | r + 1, _ =>
      rw [Nat.add_zero] at hp
      simp [wait_from, hp]
  | succ k ih =>
    intro remaining waited hir hnt hp
    match remaining, hir with
    | r + 1, hir =>
      have h0 : non_terminal (poll waited) := by
        simpa using hnt 0 (Nat.succ_pos k)
      cases hpw : poll waited with
      | error => rw [hpw] at h0; exact absurd h0 (by simp [non_terminal])
      | ok s0 fq0 =>
        rw [hpw] at h0
        obtain ⟨hs1, hs2⟩ := h0
        have step : ∀ j, j < k → non_terminal (poll (waited + 1 + j)) := by
          intro j hj
          have e : waited + 1 + j = waited + (j + 1) := by omega
          rw [e]
          exact hnt (j + 1) (by omega)
        have hp1 : poll (waited + 1 + k) = PollResult.error := by
          have e : waited + 1 + k = waited + (k + 1) := by omega
          rw [e]; exact hp
        simp only [wait_from, hpw]
        rw [if_neg hs1, hs2]
        simp only [Bool.false_eq_true, if_false]
        rw [ih r (waited + 1) (by omega) step hp1]

/-- Claim C2: for every poll sequence and every max_wait ≥ 1,
`wait_for_order_fill` returns the observed filled quantity on the first
poll showing FILLED (after exactly i+1 polls when that is poll i), returns
no fill immediately (after exactly i+1 polls) on a first poll showing
CANCELED/REJECTED/EXPIRED or raising a transport error, and returns no
fill after exactly max_wait polls when every poll is non-terminal. -/
theorem wait_for_order_fill_spec (poll : Nat → PollResult) (max_wait : Nat)
    (hmw : 1 ≤ max_wait) :
    (∀ i, i < max_wait → (∀ j, j < i → non_terminal (poll j)) →
      (∀ fq, poll i = PollResult.ok OrderStatus.filled fq →
        wait_for_order_fill poll max_wait = some fq ∧
        wait_poll_count poll max_wait = i + 1) ∧
      (∀ s fq, poll i = PollResult.ok s fq → is_terminal_failure s = true →
        wait_for_order_fill poll max_wait = none ∧
        wait_poll_count poll max_wait = i + 1) ∧
      (poll i = PollResult.error →
        wait_for_order_fill poll max_wait = none ∧
        wait_poll_count poll max_wait = i + 1)) ∧
    ((∀ j, j < max_wait → non_terminal (poll j)) →
      wait_for_order_fill poll max_wait = none ∧
      wait_poll_count poll max_wait = max_wait) := by
  constructor
  · intro i hi hnt
    have hnt0 : ∀ j, j < i → non_terminal (poll (0 + j)) := by
      intro j hj; simpa using hnt j hj
    refine ⟨?_, ?_, ?_⟩
    · intro fq hp
      have h := wait_from_filled poll i max_wait 0 fq hi hnt0 (by simpa using hp)
      exact ⟨by simp [wait_for_order_fill, h], by simp [wait_poll_count, h]⟩
    · intro s fq hp hterm
      have h := wait_from_terminal poll i max_wait 0 s fq hi hnt0 (by simpa using hp) hterm
      exact ⟨by simp [wait_for_order_fill, h], by simp [wait_poll_count, h]⟩
    · intro hp
      have h := wait_from_error poll i max_wait 0 hi hnt0 (by simpa using hp)
      exact ⟨by simp [wait_for_order_fill, h], by simp [wait_poll_count, h]⟩
  · intro hnt
    have hnt0 : ∀ j, j < max_wait → non_terminal (poll (0 + j)) := by
      intro j hj; simpa using hnt j hj
    have h := wait_from_all_nonterminal poll max_wait 0 hnt0
    exact ⟨by simp [wait_for_order_fill, h], by simp [wait_poll_count, h]⟩

/-- Witness for C2: the concrete poll sequence `pollW` shows two
non-terminal polls and then a fill of 7 shares, so with max_wait 5 the
wait returns 7 after exactly 3 polls. -/
theorem wait_for_order_fill_spec_witness :
    1 ≤ 5 ∧ wait_for_order_fill pollW 5 = some 7 ∧ wait_poll_count pollW 5 = 3 :=
  ⟨by norm_num,
   ((wait_for_order_fill_spec pollW 5 (by norm_num)).1 2 (by norm_num)
     (by decide)).1 7 (by decide)⟩

/-- The buying-power validation fails exactly when buying power is ≤ 0,
for either side. -/
theorem validate_trade_false_iff (bp : ℚ) (symbol : String) (qty : ℚ) (side : Side) :
    validate_trade bp symbol qty side = false ↔ bp ≤ 0 := by
  cases side <;> by_cases h : bp ≤ 0 <;> simp [validate_trade, h]

/-- Python truthiness of an optional price holds exactly for a supplied
non-zero value. -/
theorem pyTruthy_iff (x : Option ℚ) :
    pyTruthy x = true ↔ ∃ a, x = some a ∧ a ≠ 0 := by
  cases x <;> simp [pyTruthy]

/-- A market-order placement contributes only market submissions to the
trace, and only of the constructed request. -/
theorem place_market_order_mem_market {bp : ℚ}
    {submit : MarketOrderRequest → Option OrderAck}
    {symbol : String} {qty : ℚ} {side : Side} {slp tpp : Option ℚ}
    {m : MarketOrderRequest}
    (h : TraceAction.submitMarket m ∈
      (place_market_order bp submit symbol qty side slp tpp).1) :
    m = build_market_order symbol qty side slp tpp := by
  simp only [place_market_order] at h
  split at h
  · simp at h
  · simpa using h

/-- A market-order placement never contributes a trailing submission. -/
theorem no_trailing_in_market {bp : ℚ}
    {submit : MarketOrderRequest → Option OrderAck}
    {symbol : String} {qty : ℚ} {side : Side} {slp tpp : Option ℚ}
    {t : TrailingStopOrderRequest} :
    TraceAction.submitTrailing t ∉
      (place_market_order bp submit symbol qty side slp tpp).1 := by
  simp only [place_market_order]
  split <;> simp

/-- A trailing-stop placement submits only the request with the inverted
side, the given quantity and the given trail parameters. -/
theorem trailing_fst_mem {bp : ℚ}
    {submit : TrailingStopOrderRequest → Option OrderAck}
    {symbol : String} {qty : ℚ} {side : Side} {tp tpc : Option ℚ}
    {t : TrailingStopOrderRequest}
    (h : TraceAction.submitTrailing t ∈
      (place_trailing_stop_order bp submit symbol qty side tp tpc).1) :
    t = ⟨symbol, qty, invert_side side, tp, tpc⟩ := by
  simp only [place_trailing_stop_order] at h
  split at h
  · simp at h
  · cases side <;> simpa [invert_side] using h

/-- A trailing-stop placement never contributes a market submission. -/
theorem no_market_in_trailing {bp : ℚ}
    {submit : TrailingStopOrderRequest → Option OrderAck}
    {symbol : String} {qty : ℚ} {side : Side} {tp tpc : Option ℚ}
    {m : MarketOrderRequest} :
    TraceAction.submitMarket m ∉
      (place_trailing_stop_order bp submit symbol qty side tp tpc).1 := by
  simp only [place_trailing_stop_order]
  split <;> simp

/-- Any trailing submission in the per-symbol processing carries the
filled quantity reported by the fill wait (which is positive), the
inverted entry side, and the processed symbol. -/
theorem process_symbol_trailing_mem {symbol : String} {env : SymbolEnv}
    {t : TrailingStopOrderRequest}
    (h : TraceAction.submitTrailing t ∈ process_symbol symbol env) :
    wait_for_order_fill env.poll 10 = some t.qty ∧ 0 < t.qty ∧
      t.side = invert_side (side_of_signal env.signal) ∧ t.symbol = symbol := by
  simp only [process_symbol] at h
  split at h
  · simp at h
  split at h
  · simp at h
  split at h
  · simp at h
  split at h
  · simp at h
  split at h
  · exact absurd h no_trailing_in_market
  split at h
  · exact absurd h no_trailing_in_market
  next fq hfq =>
    split at h
    next hpos =>
      rw [List.mem_append] at h
      cases h with
      | inl h => exact absurd h no_trailing_in_market
      | inr h =>
        have ht := trailing_fst_mem h
        subst ht
        exact ⟨hfq, hpos, rfl, rfl⟩
    · exact absurd h no_trailing_in_market

/-- Any market submission in the per-symbol processing is for the
processed symbol. -/
theorem process_symbol_market_mem {symbol : String} {env : SymbolEnv}
    {m : MarketOrderRequest}
    (h : TraceAction.submitMarket m ∈ process_symbol symbol env) :
    m.symbol = symbol := by
  simp only [process_symbol] at h
  split at h
  · simp at h
  split at h
  · simp at h
  split at h
  · simp at h
  split at h
  · simp at h
  split at h
  · rw [place_market_order_mem_market h]; rfl
  split at h
  · rw [place_market_order_mem_market h]; rfl
  split at h
  · rw [List.mem_append] at h
    cases h with
    | inl h => rw [place_market_order_mem_market h]; rfl
    | inr h => exact absurd h no_market_in_trailing
  · rw [place_market_order_mem_market h]; rfl

/-- When a position in the symbol is already open, the per-symbol
processing submits nothing. -/
theorem process_symbol_skip_position {symbol : String} {env : SymbolEnv}
    (h : symbol ∈ env.positions) :
    process_symbol symbol env = [] := by
  by_cases h1 : env.has_data = false
  · simp [process_symbol, h1]
  · by_cases h2 : env.signal = Signal.HOLD
    · simp [process_symbol, h1, h2]
    · simp [process_symbol, h1, h2, h]

/-- Claim C1: every trailing stop the loop submits after an entry carries as its
quantity exactly the filled quantity returned by wait_for_order_fill
(which is positive) and the side inverted from the entry side; and when
the fill wait reports no fill or a filled quantity of 0, no trailing stop
is submitted at all. -/
theorem trailing_stop_qty_and_side (symbol : String) (env : SymbolEnv) :
    (∀ t, TraceAction.submitTrailing t ∈ process_symbol symbol env →
      wait_for_order_fill env.poll 10 = some t.qty ∧ 0 < t.qty ∧
      t.side = invert_side (side_of_signal env.signal)) ∧
    ((wait_for_order_fill env.poll 10 = none ∨
      wait_for_order_fill env.poll 10 = some 0) →
      ∀ t, TraceAction.submitTrailing t ∉ process_symbol symbol env) := by
  constructor
  · intro t ht
    obtain ⟨h1, h2, h3, -⟩ := process_symbol_trailing_mem ht
    exact ⟨h1, h2, h3⟩
  · intro h t ht
    obtain ⟨hw, hpos, -, -⟩ := process_symbol_trailing_mem ht
    cases h with
    | inl h0 => rw [h0] at hw; cases hw
    | inr h0 =>
      rw [h0] at hw
      have : (0:ℚ) = t.qty := by injection hw
      rw [← this] at hpos
      exact absurd hpos (by norm_num)

/-- Witness for C1: in the concrete environment whose entry order is
canceled the fill wait reports no fill, and no trailing stop is
submitted. -/
theorem trailing_stop_qty_and_side_witness :
    wait_for_order_fill sym_env_nofill.poll 10 = none ∧
    TraceAction.submitTrailing ⟨"AAPL", 5, Side.sell, some 1, none⟩ ∉
      process_symbol "AAPL" sym_env_nofill :=
  ⟨by decide,
   (trailing_stop_qty_and_side "AAPL" sym_env_nofill).2 (Or.inl (by decide)) _⟩

/-- Claim C3: place_market_order fails closed — with buying power ≤ 0 it returns
a null result and submits nothing, and when the broker submission raises
(modelled by `submit` returning none) the result is null rather than an
exception reaching the caller. -/
theorem place_market_order_fails_closed (bp : ℚ)
    (submit : MarketOrderRequest → Option OrderAck)
    (symbol : String) (qty : ℚ) (side : Side) (slp tpp : Option ℚ) :
    (bp ≤ 0 → place_market_order bp submit symbol qty side slp tpp = ([], none)) ∧
    (submit (build_market_order symbol qty side slp tpp) = none →
      (place_market_order bp submit symbol qty side slp tpp).2 = none) := by
  constructor
  · intro hbp
    have hv : validate_trade bp symbol qty side = false :=
      (validate_trade_false_iff bp symbol qty side).2 hbp
    simp [place_market_order, hv]
  · intro hsub
    by_cases hv : validate_trade bp symbol qty side = false
    · simp [place_market_order, hv]
    · simp [place_market_order, hv, hsub]

/-- Witness for C3: with buying power -1 the placement returns a null
result and an empty submission trace. -/
theorem place_market_order_fails_closed_witness :
    (-1 : ℚ) ≤ 0 ∧
    place_market_order (-1) (fun _ => none) "AAPL" 5 Side.buy none none = ([], none) :=
  ⟨by norm_num,
   (place_market_order_fails_closed (-1) (fun _ => none) "AAPL" 5 Side.buy none none).1
     (by norm_num)⟩

/-- Claim C10: place_trailing_stop_order runs the same buying-power validation
as entry orders, passing the original entry side (the submitted request
itself carries the inverted side); with buying power ≤ 0 it returns a null
result and submits no protective exit order, and with positive buying
power it submits exactly the trailing-stop request on the inverted
side. -/
theorem place_trailing_stop_validation (bp : ℚ)
    (submit : TrailingStopOrderRequest → Option OrderAck)
    (symbol : String) (qty : ℚ) (side : Side) (tp tpc : Option ℚ) :
    (bp ≤ 0 → place_trailing_stop_order bp submit symbol qty side tp tpc = ([], none)) ∧
    (0 < bp → (place_trailing_stop_order bp submit symbol qty side tp tpc).1 =
      [TraceAction.submitTrailing ⟨symbol, qty, invert_side side, tp, tpc⟩]) ∧
    validate_trade bp symbol qty side = validate_trade bp symbol qty (invert_side side) := by
  refine ⟨?_, ?_, ?_⟩
  · intro hbp
    have hv : validate_trade bp symbol qty side = false :=
      (validate_trade_false_iff bp symbol qty side).2 hbp
    simp [place_trailing_stop_order, hv]
  · intro hbp
    have hv : ¬ validate_trade bp symbol qty side = false := by
      rw [validate_trade_false_iff]; exact not_le.mpr hbp
    cases side <;> simp [place_trailing_stop_order, hv, invert_side]
  · cases side <;> rfl

/-- Witness for C10: with buying power -1 the trailing-stop placement
returns a null result and submits nothing. -/
theorem place_trailing_stop_validation_witness :
    (-1 : ℚ) ≤ 0 ∧
    place_trailing_stop_order (-1) (fun _ => none) "AAPL" 3 Side.buy (some 1) none =
      ([], none) :=
  ⟨by norm_num,
   (place_trailing_stop_validation (-1) (fun _ => none) "AAPL" 3 Side.buy (some 1) none).1
     (by norm_num)⟩

/-- Truncation toward zero of a rational ≤ 60 is an integer ≤ 60. -/
theorem int_trunc_le_60 {q : ℚ} (h : q ≤ 60) : int_trunc q ≤ 60 := by
  unfold int_trunc
  split
  · have h1 : (⌊q⌋ : ℤ) ≤ ⌊(60 : ℚ)⌋ := Int.floor_le_floor h
    have h2 : (⌊(60 : ℚ)⌋ : ℤ) = 60 := by norm_num
    omega
  next h0 =>
    have hq : q ≤ 0 := le_of_lt (lt_of_not_ge h0)
    have h1 : (⌈q⌉ : ℤ) ≤ ⌈(0 : ℚ)⌉ := Int.ceil_le_ceil hq
    have h2 : (⌈(0 : ℚ)⌉ : ℤ) = 0 := by norm_num
    omega

/-- Claim C4: in a cycle with the market open and at most 3600 seconds until
close, the loop closes all positions, submits no order of any kind, and
sleeps max(trading_start_time - current_time, 0) seconds, where
trading_start_time is next_open + 1 hour. -/
theorem flatten_near_close (env : CycleEnv)
    (hopen : env.clock.is_open = true)
    (hclose : env.clock.next_close - env.clock.current_time ≤ 3600) :
    run_cycle env =
      [TraceAction.closeAll,
       TraceAction.sleep (max (env.clock.next_open + 3600 - env.clock.current_time) 0)] := by
  have hq : (env.clock.next_close - env.clock.current_time) / 60 ≤ 60 := by linarith
  have ht : int_trunc ((env.clock.next_close - env.clock.current_time) / 60) ≤ 60 :=
    int_trunc_le_60 hq
  simp [run_cycle, hopen, ht]

/-- Witness for C4: a concrete open-market cycle 1800 seconds before close
flattens and sleeps until the trading-start window. -/
theorem flatten_near_close_witness :
    envC4.clock.is_open = true ∧
    envC4.clock.next_close - envC4.clock.current_time ≤ 3600 ∧
    run_cycle envC4 =
      [TraceAction.closeAll,
       TraceAction.sleep (max (envC4.clock.next_open + 3600 - envC4.clock.current_time) 0)] :=
  ⟨rfl, by norm_num [envC4], flatten_near_close envC4 rfl (by norm_num [envC4])⟩

/-- Claim C8: whenever the clock reports the market closed, the cycle does
nothing but sleep exactly max(trading_start_time - current_time, 0)
seconds, a quantity that is never negative, for every combination of
current_time and next_open. -/
theorem closed_market_sleep (env : CycleEnv)
    (hclosed : env.clock.is_open = false) :
    run_cycle env =
      [TraceAction.sleep (max (env.clock.next_open + 3600 - env.clock.current_time) 0)] ∧
    0 ≤ max (env.clock.next_open + 3600 - env.clock.current_time) 0 :=
  ⟨by simp [run_cycle, hclosed], le_max_right _ _⟩

/-- Witness for C8: a concrete closed-market cycle whose reported next
open lies in the past still sleeps a non-negative duration. -/
theorem closed_market_sleep_witness :
    envC8.clock.is_open = false ∧
    run_cycle envC8 =
      [TraceAction.sleep (max (envC8.clock.next_open + 3600 - envC8.clock.current_time) 0)] ∧
    0 ≤ max (envC8.clock.next_open + 3600 - envC8.clock.current_time) 0 :=
  ⟨rfl, (closed_market_sleep envC8 rfl).1, (closed_market_sleep envC8 rfl).2⟩

/-- Claim C5: when the freshly re-fetched positions snapshot used for a symbol
already contains that symbol, the cycle submits no order of any kind for
that symbol. -/
theorem duplicate_position_gate (env : CycleEnv) (sym : String)
    (hpos : sym ∈ (env.sym_env sym).positions) :
    (∀ m, TraceAction.submitMarket m ∈ run_cycle env → m.symbol ≠ sym) ∧
    (∀ t, TraceAction.submitTrailing t ∈ run_cycle env → t.symbol ≠ sym) := by
  by_cases h1 : env.clock.is_open = false
  · constructor <;> intro x hx <;> simp [run_cycle, h1] at hx
  · by_cases h2 :
      int_trunc ((env.clock.next_close - env.clock.current_time) / 60) ≤ 60
    · constructor <;> intro x hx <;> simp [run_cycle, h1, h2] at hx
    · have hrc : run_cycle env =
          (env.symbols.map fun s => process_symbol s (env.sym_env s)).flatten ++
            [TraceAction.sleep (min (env.clock.next_close - env.clock.current_time) 900)] := by
        simp [run_cycle, h1, h2]
      constructor
      · intro m hm
        rw [hrc, List.mem_append] at hm
        cases hm with
        | inr h => simp at h
        | inl h =>
          rw [List.mem_flatten] at h
          obtain ⟨l, hl, hml⟩ := h
          rw [List.mem_map] at hl
          obtain ⟨s, hs, rfl⟩ := hl
          by_cases hss : s = sym
          · subst hss
            rw [process_symbol_skip_position hpos] at hml
            simp at hml
          · rw [process_symbol_market_mem hml]
            exact hss
      · intro t ht
        rw [hrc, List.mem_append] at ht
        cases ht with
        | inr h => simp at h
        | inl h =>
          rw [List.mem_flatten] at h
          obtain ⟨l, hl, hml⟩ := h
          rw [List.mem_map] at hl
          obtain ⟨s, hs, rfl⟩ := hl
          by_cases hss : s = sym
          · subst hss
            rw [process_symbol_skip_position hpos] at hml
            simp at hml
          · rw [(process_symbol_trailing_mem hml).2.2.2]
            exact hss

/-- Witness for C5: in the concrete cycle whose position snapshot already
holds AAPL, no market order for AAPL enters the trace even though the
signal is BUY. -/
theorem duplicate_position_gate_witness :
    "AAPL" ∈ (envC5.sym_env "AAPL").positions ∧
    TraceAction.submitMarket ⟨"AAPL", 5, Side.buy, OrderClass.simple, none, none⟩ ∉
      run_cycle envC5 :=
  ⟨by simp [envC5, sym_env_dup],
   fun hmem =>
     (duplicate_position_gate envC5 "AAPL" (by simp [envC5, sym_env_dup])).1 _ hmem rfl⟩

/-- Claim C7 counterexample: both protective prices are supplied (non-null) —
stop-loss 0.0 and take-profit 10 — yet the submitted order class is
SIMPLE, because the code tests Python truthiness and 0.0 is falsy. -/
theorem order_class_zero_stop_loss :
    (some (0 : ℚ) ≠ (none : Option ℚ)) ∧ (some (10 : ℚ) ≠ (none : Option ℚ)) ∧
    (build_market_order "SPY" 5 Side.buy (some 0) (some 10)).order_class =
      OrderClass.simple := by
  refine ⟨by simp, by simp, ?_⟩
  simp [build_market_order, pyTruthy]

/-- Claim C7 (amended): the submitted order has class BRACKET exactly when both
stop_loss_price and take_profit_price are supplied with non-zero values
(Python truthiness), and class SIMPLE otherwise. -/
theorem order_class_bracket_iff (symbol : String) (qty : ℚ) (side : Side)
    (slp tpp : Option ℚ) :
    (build_market_order symbol qty side slp tpp).order_class = OrderClass.bracket ↔
      ((∃ a, slp = some a ∧ a ≠ 0) ∧ ∃ b, tpp = some b ∧ b ≠ 0) := by
  have hproj : (build_market_order symbol qty side slp tpp).order_class =
      (if pyTruthy slp && pyTruthy tpp then OrderClass.bracket else OrderClass.simple) := rfl
  rw [hproj, ← pyTruthy_iff slp, ← pyTruthy_iff tpp]
  by_cases h1 : pyTruthy slp = true <;> by_cases h2 : pyTruthy tpp = true <;>
    simp [h1, h2]

/-- Claim C6 counterexample: for a buy entry with requested stop-loss price 100
the submitted stop price is exactly 100 (and the stop-limit 99.90): the
max() in the source collapses the buy-side adjustment, so the stop price
does not differ from the requested price by the minimum distance
0.3% = 0.3 in either direction. -/
theorem stop_price_equals_requested_for_buy :
    (build_market_order "SPY" 5 Side.buy (some 100) (some 120)).stop_loss =
      some ⟨100, 999 / 10⟩ ∧
    ¬ ((100 : ℚ) ≤ 100 - (3 / 1000) * 100 ∨ (100 : ℚ) + (3 / 1000) * 100 ≤ 100) := by
  constructor
  · simp [build_market_order, pyTruthy, round2]
    norm_num
  · norm_num

/-- Claim C6 (amended): for a supplied positive stop_loss_price, the buy-side
0.3% adjustment is a no-op — the stop price is just the rounded requested
price — while for a sell the stop price is the requested price raised by
0.3% of the requested (not stop) price; the stop-limit price is the stop
price minus (buy) or plus (sell) 0.1% of the stop price, rounded. -/
theorem stop_loss_leg_prices (symbol : String) (qty : ℚ) (tpp : Option ℚ)
    (slp : ℚ) (hslp : 0 < slp) :
    ((build_market_order symbol qty Side.buy (some slp) tpp).stop_loss =
      some ⟨round2 slp, round2 (round2 slp - round2 slp * (1 / 1000))⟩) ∧
    ((build_market_order symbol qty Side.sell (some slp) tpp).stop_loss =
      some ⟨round2 (slp + slp * (3 / 1000)),
            round2 (round2 (slp + slp * (3 / 1000)) +
              round2 (slp + slp * (3 / 1000)) * (1 / 1000))⟩) := by
  have hne : slp ≠ 0 := ne_of_gt hslp
  have hmax1 : max slp (slp - slp * (3 / 1000)) = slp := by
    apply max_eq_left; nlinarith
  have hmax2 : max slp (slp + slp * (3 / 1000)) = slp + slp * (3 / 1000) := by
    apply max_eq_right; nlinarith
  constructor
  · simp [build_market_order, pyTruthy, hne, hmax1]
  · simp [build_market_order, pyTruthy, hne, hmax2]

/-- Witness for the amended C6 at stop-loss price 100: buy keeps the stop
at 100.00 with limit 99.90; sell raises it to 100.30 with limit 100.40. -/
theorem stop_loss_leg_prices_witness :
    (0 : ℚ) < 100 ∧
    ((build_market_order "SPY" 5 Side.buy (some 100) none).stop_loss =
      some ⟨round2 100, round2 (round2 100 - round2 100 * (1 / 1000))⟩) ∧
    ((build_market_order "SPY" 5 Side.sell (some 100) none).stop_loss =
      some ⟨round2 (100 + 100 * (3 / 1000)),
            round2 (round2 (100 + 100 * (3 / 1000)) +
              round2 (100 + 100 * (3 / 1000)) * (1 / 1000))⟩) :=
  ⟨by norm_num,
   (stop_loss_leg_prices "SPY" 5 none 100 (by norm_num)).1,
   (stop_loss_leg_prices "SPY" 5 none 100 (by norm_num)).2⟩

/-- Claim C9 counterexample: with only take_profit_price = 0.001 supplied
(non-null and non-zero), the order class is SIMPLE but the submitted
order carries NO take-profit leg: rounding to 2 decimals yields 0.0,
which is falsy, so the leg is dropped. -/
theorem tiny_take_profit_drops_leg :
    ((1 : ℚ) / 1000 ≠ 0) ∧
    (build_market_order "SPY" 5 Side.buy none (some (1 / 1000))).order_class =
      OrderClass.simple ∧
    (build_market_order "SPY" 5 Side.buy none (some (1 / 1000))).take_profit = none := by
  have h1 : (1 : ℚ) / 1000 ≠ 0 := by norm_num
  have h2 : round2 (1 / 1000) = 0 := by norm_num [round2]
  have h2b : round2 ((1000 : ℚ)⁻¹) = 0 := by rw [← one_div]; exact h2
  refine ⟨h1, ?_, ?_⟩
  · simp [build_market_order, pyTruthy]
  · simp [build_market_order, pyTruthy, h1, h2, h2b]

/-- Claim C9 (amended): when exactly one protective price is supplied the order
class is SIMPLE and the corresponding sub-order is still attached — the
stop-loss leg whenever the supplied stop-loss price is non-zero, the
take-profit leg whenever the supplied take-profit price is non-zero after
rounding to 2 decimals. -/
theorem simple_order_single_leg (symbol : String) (qty : ℚ) (side : Side) (a b : ℚ) :
    (a ≠ 0 →
      (build_market_order symbol qty side (some a) none).order_class = OrderClass.simple ∧
      (build_market_order symbol qty side (some a) none).stop_loss ≠ none ∧
      (build_market_order symbol qty side (some a) none).take_profit = none) ∧
    (round2 b ≠ 0 →
      (build_market_order symbol qty side none (some b)).order_class = OrderClass.simple ∧
      (build_market_order symbol qty side none (some b)).take_profit =
        some ⟨round2 b⟩ ∧
      (build_market_order symbol qty side none (some b)).stop_loss = none) := by
  constructor
  · intro ha
    refine ⟨?_, ?_, ?_⟩ <;> simp [build_market_order, pyTruthy, ha]
  · intro hb
    have hbne : b ≠ 0 := by
      intro h
      rw [h] at hb
      exact hb (by norm_num [round2])
    refine ⟨?_, ?_, ?_⟩ <;> simp [build_market_order, pyTruthy, hbne, hb]

/-- Witness for the amended C9 at price 50: a stop-loss-only order keeps
its stop-loss leg, a take-profit-only order keeps its take-profit leg,
both with class SIMPLE. -/
theorem simple_order_single_leg_witness :
    ((50 : ℚ) ≠ 0 ∧ round2 50 ≠ 0) ∧
    (build_market_order "SPY" 5 Side.buy (some 50) none).order_class = OrderClass.simple ∧
    (build_market_order "SPY" 5 Side.buy (some 50) none).stop_loss ≠ none ∧
    (build_market_order "SPY" 5 Side.buy none (some 50)).order_class = OrderClass.simple ∧
    (build_market_order "SPY" 5 Side.buy none (some 50)).take_profit = some ⟨round2 50⟩ :=
  ⟨⟨by norm_num, by norm_num [round2]⟩,
   ((simple_order_single_leg "SPY" 5 Side.buy 50 50).1 (by norm_num)).1,
   ((simple_order_single_leg "SPY" 5 Side.buy 50 50).1 (by norm_num)).2.1,
   ((simple_order_single_leg "SPY" 5 Side.buy 50 50).2 (by norm_num [round2])).1,
   ((simple_order_single_leg "SPY" 5 Side.buy 50 50).2 (by norm_num [round2])).2.1⟩
